import Mathlib

/-!
Verification of the PyGame-Dev instructional repository.

The development shallowly embeds the core game-logic of the repository:

* the Crazy-Robot game loop of
  `Lesson-01/Crazy-Robot/cot_moc_4.py` (per-tick update phase,
  item pickup, hazard and goal collision checks, quit handling);
* the event filtering of
  `Lesson-07/Checkpoint-2/src/game_entities/friendly_npc.py`;
* the axis-aligned overlap detector, the `GameState` transition
  functions and `World.remove_entity`, whose defining modules
  (`utils`, `entities`, `worlds/world.py`) are not part of the
  sources; those are modelled from the specification and marked so.

Rendering, asset loading and pygame plumbing are outside the model,
as the specification declares them out of scope.
-/

namespace PyGameDev

/-- An axis-aligned rectangle, given by top-left corner and size.
`pygame.Rect` stores integer coordinates. -/
structure Rect where
  x : Int
  y : Int
  w : Int
  h : Int
  deriving Repr, DecidableEq

/-- Modelled from the spec: the pure overlap detector
`overlaps(a_rect, b_rect)` (the repository's `utils.overlap`, whose
module is not among the sources).  Per spec section 4.2 it returns
true iff the x-ranges and the y-ranges of the two rectangles both
overlap with non-zero measure; touching edges do not count. -/
def overlaps (a b : Rect) : Bool :=
  decide (max a.x b.x < min (a.x + a.w) (b.x + b.w)) &&
  decide (max a.y b.y < min (a.y + a.h) (b.y + b.h))

/-- The half-open x-range and y-range of two rectangles overlap with
non-zero measure: the reference reading of spec section 4.2, stated
independently of `overlaps` for the refinement claim C7. -/
def rangesOverlapNonzero (a b : Rect) : Prop :=
  (max a.x b.x < min (a.x + a.w) (b.x + b.w)) ∧
  (max a.y b.y < min (a.y + a.h) (b.y + b.h))

instance (a b : Rect) : Decidable (rangesOverlapNonzero a b) := by
  unfold rangesOverlapNonzero; infer_instance

/-! ## Crazy-Robot data model (Lesson-01, `cot_moc_4.py`)

Entity classes live in the absent `entities` module; the fields used
by the game loop are `x`, `y`, the sprite `image` (only its size
matters for `overlap`), the item `hidden` flag, and the `GameState`
pair (score, state).  Sizes are embedded directly as width/height. -/

/-- The player of the Crazy-Robot game: position plus sprite size. -/
structure PlayerE where
  x : Int
  y : Int
  w : Int
  h : Int
  deriving Repr, DecidableEq

/-- A hazard robot: position, velocity and sprite size. -/
structure RobotE where
  x : Int
  y : Int
  dx : Int
  dy : Int
  w : Int
  h : Int
  deriving Repr, DecidableEq

/-- A collectible game item: position, sprite size and hidden-flag. -/
structure ItemE where
  x : Int
  y : Int
  w : Int
  h : Int
  hidden : Bool
  deriving Repr, DecidableEq

/-- The goal NPC (`to_mo`): position plus sprite size. -/
structure NpcE where
  x : Int
  y : Int
  w : Int
  h : Int
  deriving Repr, DecidableEq

/-- Bounding rectangle of the player, as passed to `overlap`. -/
def PlayerE.rect (p : PlayerE) : Rect := ⟨p.x, p.y, p.w, p.h⟩

/-- Bounding rectangle of a robot, as passed to `overlap`. -/
def RobotE.rect (r : RobotE) : Rect := ⟨r.x, r.y, r.w, r.h⟩

/-- Bounding rectangle of an item, as passed to `overlap`. -/
def ItemE.rect (it : ItemE) : Rect := ⟨it.x, it.y, it.w, it.h⟩

/-- Bounding rectangle of the goal NPC, as passed to `overlap`. -/
def NpcE.rect (n : NpcE) : Rect := ⟨n.x, n.y, n.w, n.h⟩

/-- `GameItem.set_hidden()`: marks the item picked up.  The method
body is in the absent `entities` module; its one observable effect in
the loop is that the item is skipped by the `not item.hidden` guard
afterwards, so it sets the flag. -/
def ItemE.set_hidden (it : ItemE) : ItemE := { it with hidden := true }

/-- The game-state value: `GameStateType` of the `entities` module. -/
inductive GameStateType where
  | RUNNING
  | WON
  | LOST
  deriving Repr, DecidableEq

/-- `GameState`: current score and state value. -/
structure GameState where
  score : Nat
  state : GameStateType
  deriving Repr, DecidableEq

/-- `GameState.update_score(new_score)`: stores the new score.  The
method body is in the absent `entities` module; the loop computes
`new_score = score + 1` itself and passes it in, so the method is a
plain store. -/
def GameState.update_score (g : GameState) (new_score : Nat) : GameState :=
  { g with score := new_score }

/-- Modelled from the spec: `GameState.update_state(s)` (absent
`entities` module).  Spec section 3 makes {RUNNING, WON, LOST} a
terminal state machine whose only transitions leave RUNNING, with WON
and LOST absorbing and mutually exclusive, the first terminal
transition of a tick being the one applied; hence the transition is
taken only from RUNNING. -/
def GameState.update_state (g : GameState) (s : GameStateType) : GameState :=
  if g.state = GameStateType.RUNNING then { g with state := s } else g

/-- The whole mutable state the Crazy-Robot loop body touches. -/
structure CrazyState where
  player : PlayerE
  robots : List RobotE
  items : List ItemE
  to_mo : NpcE
  gs : GameState
  deriving Repr, DecidableEq

/-! ## The Crazy-Robot tick (`cot_moc_4.py`, lines 45-66)

`Player.update` and `Robot.update` are methods of the absent
`entities` module; the loop only calls them to advance motion, so the
tick is parametrised over the two motion functions `pu` and `ru`. -/

/-- The update phase of a RUNNING tick (lines 46-49): advance the
player and every robot; the game state is untouched. -/
def updatePhase (pu : PlayerE → PlayerE) (ru : RobotE → RobotE)
    (s : CrazyState) : CrazyState :=
  { s with player := pu s.player, robots := s.robots.map ru }

/-- The pickup guard of the item loop (line 52-53): the item is not
hidden and its rectangle overlaps the player's. -/
def picked (p : PlayerE) (it : ItemE) : Bool :=
  !it.hidden && overlaps p.rect it.rect

/-- The item-pickup loop (lines 51-57): for each item that is not
hidden and overlaps the player, hide it and increase the score by one
via `update_score`.  Returns the traversed items and the game state. -/
def itemPhase (p : PlayerE) : List ItemE → GameState → List ItemE × GameState
  | [], gs => ([], gs)
  | it :: rest, gs =>
    if picked p it then
      let out := itemPhase p rest (gs.update_score (gs.score + 1))
      (it.set_hidden :: out.1, out.2)
    else
      let out := itemPhase p rest gs
      (it :: out.1, out.2)

/-- The hazard-collision loop (lines 59-62): every robot overlapping
the player triggers `update_state(LOST)`; the loop has no break. -/
def hazardPhase (p : PlayerE) (robots : List RobotE) (gs : GameState) :
    GameState :=
  robots.foldl
    (fun g r =>
      if overlaps p.rect r.rect then g.update_state GameStateType.LOST else g)
    gs

/-- The goal-collision check (lines 64-66): overlapping the goal NPC
triggers `update_state(WON)`.  It runs after the hazard loop with no
guard of its own. -/
def goalPhase (p : PlayerE) (n : NpcE) (gs : GameState) : GameState :=
  if overlaps p.rect n.rect then gs.update_state GameStateType.WON else gs

/-- The body of the RUNNING branch after the update phase (lines
51-66): the item loop, then the hazard loop, then the goal check, in
that order. -/
def collisionPhases (s1 : CrazyState) : CrazyState :=
  { s1 with
    items := (itemPhase s1.player s1.items s1.gs).1,
    gs := goalPhase s1.player s1.to_mo
      (hazardPhase s1.player s1.robots
        (itemPhase s1.player s1.items s1.gs).2) }

/-- One iteration of the loop body after the quit check (lines
45-66): when the state is RUNNING, run the update phase and the three
collision phases in order; otherwise skip straight to rendering,
which does not touch this state. -/
def tick (pu : PlayerE → PlayerE) (ru : RobotE → RobotE)
    (s : CrazyState) : CrazyState :=
  if s.gs.state = GameStateType.RUNNING then
    collisionPhases (updatePhase pu ru s)
  else s

/-- Iterated ticks: the state after `n` further loop iterations in
which no quit signal arrives. -/
def tickIter (pu : PlayerE → PlayerE) (ru : RobotE → RobotE) :
    Nat → CrazyState → CrazyState
  | 0, s => s
  | n + 1, s => tickIter pu ru n (tick pu ru s)

/-- The whole `while running` loop (lines 37-66): each iteration
first peeks for a quit signal (line 38) and breaks out of the loop if
one is present, before any update or collision work; otherwise it
runs one tick.  The list holds the per-iteration quit signals; the
loop also ends when they are exhausted. -/
def runGame (pu : PlayerE → PlayerE) (ru : RobotE → RobotE) :
    List Bool → CrazyState → CrazyState
  | [], s => s
  | quit :: rest, s =>
    if quit then s else runGame pu ru rest (tick pu ru s)

/-! ## FriendlyNpc event handling (Lesson-07, `friendly_npc.py`)

`GameEvent` (absent `common/event.py`) carries a type and an optional
listener identifier; `get_listener_id()` returns the identifier or
`None`, and `is_type(t)` compares the type.  Only the fields the
handler reads are embedded. -/

/-- The event types the embedded entities inspect. -/
inductive EventType where
  | PLAYER_NEAR_NPC
  | PLAYER_ACTIVATE_NPC
  | NPC_DIALOGUE_END
  | other
  deriving Repr, DecidableEq

/-- A `GameEvent`: its type and optional listener identifier. -/
structure GameEvent where
  etype : EventType
  listener_id : Option Nat
  deriving Repr, DecidableEq

/-- `event.get_listener_id() == self.id` as evaluated in Python: the
left side is `Optional[int]`, so `None` compares unequal to any id. -/
def GameEvent.matchesListener (e : GameEvent) (id : Nat) : Bool :=
  match e.listener_id with
  | some l => l == id
  | none => false

/-- `event.is_type(t)`. -/
def GameEvent.is_type (e : GameEvent) (t : EventType) : Bool :=
  e.etype == t

/-- The state of a `FriendlyNpc` relevant to its event handling. -/
structure FriendlyNpc where
  id : Nat
  is_near_player : Bool
  deriving Repr, DecidableEq

/-- The `for event in self.events` loop of
`FriendlyNpc._handle_events` (lines 41-47): events whose listener
identifier does not equal this NPC's id are skipped by `continue`;
a matching PLAYER_NEAR_NPC event sets the flag. -/
def handleEventsLoop (id : Nat) (flag : Bool) : List GameEvent → Bool
  | [] => flag
  | e :: rest =>
    if !(e.matchesListener id) then handleEventsLoop id flag rest
    else if e.is_type EventType.PLAYER_NEAR_NPC then
      handleEventsLoop id true rest
    else handleEventsLoop id flag rest

/-- `FriendlyNpc._handle_events` (lines 39-47): resets
`is_near_player` to False, then runs the event loop. -/
def FriendlyNpc.handle_events (npc : FriendlyNpc) (events : List GameEvent) :
    FriendlyNpc :=
  { npc with is_near_player := handleEventsLoop npc.id false events }

/-- `FriendlyNpc.update(events, world)` (lines 32-37) restricted to
the flag state: the base update stores the delivered events, then
`_handle_events` recomputes `is_near_player` from them; the
highlight/unhighlight branch only manages the decorative question
mark in the world and is outside this state. -/
def FriendlyNpc.update (npc : FriendlyNpc) (events : List GameEvent) :
    FriendlyNpc :=
  npc.handle_events events

/-! ## World entity registry

`worlds/world.py` is absent from the sources; the registry is
modelled from the spec (sections 3 and 4.1): an owning collection
mapping identifier to entity, where `remove_entity` deregisters and
removing an absent identifier is a no-op. -/

/-- Modelled from the spec: the `World` owning collection, an
identifier-keyed list of live entities (the entity payload is opaque
for the registry claims). -/
structure World (α : Type) where
  entities : List (Nat × α)
  deriving Repr, DecidableEq

/-- Modelled from the spec: `World.remove_entity(id)` deregisters the
entity with that identifier; an identifier that is not live matches
nothing and the collection is returned unchanged. -/
def World.remove_entity {α : Type} (w : World α) (id : Nat) : World α :=
  { w with entities := w.entities.filter (fun p => p.1 != id) }

/-- A live identifier of the world. -/
def World.live {α : Type} (w : World α) (id : Nat) : Prop :=
  ∃ p ∈ w.entities, p.1 = id

instance {α : Type} (w : World α) (id : Nat) : Decidable (w.live id) := by
  unfold World.live; infer_instance

/-! ## Helper lemmas -/

/-- `update_state` keeps the score in both of its branches. -/
lemma update_state_score (g : GameState) (s : GameStateType) :
    (g.update_state s).score = g.score := by
  unfold GameState.update_state
  split <;> rfl

/-- From RUNNING, `update_state` stores the requested state value. -/
lemma update_state_of_running (g : GameState) (s : GameStateType)
    (h : g.state = GameStateType.RUNNING) : g.update_state s = { g with state := s } := by
  unfold GameState.update_state
  rw [if_pos h]

/-- Once the state is terminal, `update_state` is the identity. -/
lemma update_state_of_terminal (g : GameState) (s : GameStateType)
    (h : g.state ≠ GameStateType.RUNNING) : g.update_state s = g := by
  unfold GameState.update_state
  rw [if_neg h]

/-- The item loop never touches the state value. -/
lemma itemPhase_snd_state (p : PlayerE) (items : List ItemE) (gs : GameState) :
    (itemPhase p items gs).2.state = gs.state := by
  induction items generalizing gs with
  | nil => rfl
  | cons it rest ih =>
    unfold itemPhase
    split <;> simp [ih, GameState.update_score]

/-- The item loop adds one point per picked item. -/
lemma itemPhase_snd_score (p : PlayerE) (items : List ItemE) (gs : GameState) :
    (itemPhase p items gs).2.score = gs.score + items.countP (fun it => picked p it) := by
  induction items generalizing gs with
  | nil => simp [itemPhase]
  | cons it rest ih =>
    unfold itemPhase
    rcases hp : picked p it with _ | _
    · simp [hp, ih, List.countP_cons, GameState.update_score]
    · simp [hp, ih, List.countP_cons, GameState.update_score]
      omega

/-- The item loop hides exactly the picked items and keeps the rest. -/
lemma itemPhase_fst_eq (p : PlayerE) (items : List ItemE) (gs : GameState) :
    (itemPhase p items gs).1 =
      items.map (fun it => if picked p it then it.set_hidden else it) := by
  induction items generalizing gs with
  | nil => rfl
  | cons it rest ih =>
    unfold itemPhase
    rcases hp : picked p it with _ | _ <;> simp [hp, ih]

/-- Once the state is terminal, the hazard loop is the identity. -/
lemma hazardPhase_of_terminal (p : PlayerE) (robots : List RobotE) (gs : GameState)
    (h : gs.state ≠ GameStateType.RUNNING) : hazardPhase p robots gs = gs := by
  induction robots with
  | nil => rfl
  | cons r rest ih =>
    unfold hazardPhase at ih ⊢
    simp only [List.foldl_cons]
    split
    · rw [update_state_of_terminal gs _ h]
      exact ih
    · exact ih

/-- The hazard loop never touches the score. -/
lemma hazardPhase_score (p : PlayerE) (robots : List RobotE) (gs : GameState) :
    (hazardPhase p robots gs).score = gs.score := by
  induction robots generalizing gs with
  | nil => rfl
  | cons r rest ih =>
    unfold hazardPhase at ih ⊢
    simp only [List.foldl_cons]
    split
    · rw [ih (gs.update_state GameStateType.LOST)]
      exact update_state_score gs _
    · exact ih gs

/-- From RUNNING, any overlapping robot drives the hazard loop to
LOST, and the later robots of the loop cannot undo it. -/
lemma hazardPhase_lost (p : PlayerE) (robots : List RobotE) (gs : GameState)
    (hrun : gs.state = GameStateType.RUNNING)
    (hov : ∃ r ∈ robots, overlaps p.rect r.rect = true) :
    (hazardPhase p robots gs).state = GameStateType.LOST := by
  induction robots generalizing gs with
  | nil => simp at hov
  | cons r rest ih =>
    unfold hazardPhase at ih ⊢
    simp only [List.foldl_cons]
    by_cases hr : overlaps p.rect r.rect = true
    · rw [if_pos hr, update_state_of_running gs _ hrun]
      have hterm : ({ gs with state := GameStateType.LOST } : GameState).state ≠
          GameStateType.RUNNING := by simp
      have := hazardPhase_of_terminal p rest { gs with state := GameStateType.LOST } hterm
      unfold hazardPhase at this
      rw [this]
    · rw [if_neg hr]
      rcases hov with ⟨r0, hr0, hov0⟩
      rcases List.mem_cons.mp hr0 with rfl | hmem
      · exact absurd hov0 hr
      · exact ih gs hrun ⟨r0, hmem, hov0⟩

/-- Once the state is terminal, the goal check is the identity. -/
lemma goalPhase_of_terminal (p : PlayerE) (n : NpcE) (gs : GameState)
    (h : gs.state ≠ GameStateType.RUNNING) : goalPhase p n gs = gs := by
  unfold goalPhase
  split
  · exact update_state_of_terminal gs _ h
  · rfl

/-- The goal check never touches the score. -/
lemma goalPhase_score (p : PlayerE) (n : NpcE) (gs : GameState) :
    (goalPhase p n gs).score = gs.score := by
  unfold goalPhase
  split
  · exact update_state_score gs _
  · rfl

/-- The update phase leaves the game state untouched. -/
lemma updatePhase_gs (pu : PlayerE → PlayerE) (ru : RobotE → RobotE) (s : CrazyState) :
    (updatePhase pu ru s).gs = s.gs := rfl

/-- Once the state is terminal, a tick is the identity. -/
lemma tick_of_terminal (pu : PlayerE → PlayerE) (ru : RobotE → RobotE) (s : CrazyState)
    (h : s.gs.state ≠ GameStateType.RUNNING) : tick pu ru s = s := by
  unfold tick
  rw [if_neg h]

/-- A tick never decreases the score. -/
lemma tick_score_le (pu : PlayerE → PlayerE) (ru : RobotE → RobotE) (s : CrazyState) :
    s.gs.score ≤ (tick pu ru s).gs.score := by
  unfold tick
  split
  · show s.gs.score ≤ (collisionPhases (updatePhase pu ru s)).gs.score
    unfold collisionPhases
    simp only
    rw [goalPhase_score, hazardPhase_score, itemPhase_snd_score, updatePhase_gs]
    exact Nat.le_add_right _ _
  · exact Nat.le_refl _

/-- Iterated ticks never decrease the score. -/
lemma tickIter_score_le (pu : PlayerE → PlayerE) (ru : RobotE → RobotE)
    (n : Nat) (s : CrazyState) :
    s.gs.score ≤ (tickIter pu ru n s).gs.score := by
  induction n generalizing s with
  | zero => exact Nat.le_refl _
  | succ m ih =>
    exact Nat.le_trans (tick_score_le pu ru s) (ih (tick pu ru s))

/-- `overlaps` decides exactly the non-zero-measure range overlap of
spec section 4.2. -/
lemma overlaps_eq_true_iff (a b : Rect) :
    overlaps a b = true ↔ rangesOverlapNonzero a b := by
  unfold overlaps rangesOverlapNonzero
  simp

/-- `matchesListener` is the Python comparison
`event.get_listener_id() == self.id`. -/
lemma matchesListener_eq_true_iff (e : GameEvent) (id : Nat) :
    e.matchesListener id = true ↔ e.listener_id = some id := by
  unfold GameEvent.matchesListener
  cases e.listener_id with
  | none => simp
  | some l => simp

/-- `is_type` compares the event's type. -/
lemma is_type_eq_true_iff (e : GameEvent) (t : EventType) :
    e.is_type t = true ↔ e.etype = t := by
  unfold GameEvent.is_type
  simp

/-- The handler loop computes the disjunction of its entry flag with
an addressed PLAYER_NEAR_NPC event being present. -/
lemma handleEventsLoop_eq_any (id : Nat) (flag : Bool) (events : List GameEvent) :
    handleEventsLoop id flag events =
      (flag || events.any
        (fun e => e.matchesListener id && e.is_type EventType.PLAYER_NEAR_NPC)) := by
  induction events generalizing flag with
  | nil => simp [handleEventsLoop]
  | cons e rest ih =>
    rcases hm : e.matchesListener id with _ | _
    · simp [handleEventsLoop, hm, ih]
    · rcases ht : e.is_type EventType.PLAYER_NEAR_NPC with _ | _
      · simp [handleEventsLoop, hm, ht, ih]
      · simp [handleEventsLoop, hm, ht, ih]

/-! ## Claim theorems -/

/-- Claim C1: in every tick in which the (updated) player overlaps
both a robot and the goal entity, the hazard loop runs before the
goal check, the first terminal transition (LOST) is the one applied,
the later checks of the tick can no longer change the state, and the
resulting state is LOST, not WON. -/
theorem hazard_priority_over_goal
    (pu : PlayerE → PlayerE) (ru : RobotE → RobotE) (s : CrazyState)
    (hrun : s.gs.state = GameStateType.RUNNING)
    (hrob : ∃ r ∈ (updatePhase pu ru s).robots,
      overlaps (updatePhase pu ru s).player.rect r.rect = true)
    (hgoal : overlaps (updatePhase pu ru s).player.rect
      (updatePhase pu ru s).to_mo.rect = true) :
    (tick pu ru s).gs.state = GameStateType.LOST ∧
    (tick pu ru s).gs.state ≠ GameStateType.WON := by
  have hstate : (tick pu ru s).gs.state = GameStateType.LOST := by
    unfold tick
    rw [if_pos hrun]
    unfold collisionPhases
    simp only
    have hitem : (itemPhase (updatePhase pu ru s).player (updatePhase pu ru s).items
        (updatePhase pu ru s).gs).2.state = GameStateType.RUNNING := by
      rw [itemPhase_snd_state, updatePhase_gs]
      exact hrun
    have hhaz : (hazardPhase (updatePhase pu ru s).player (updatePhase pu ru s).robots
        (itemPhase (updatePhase pu ru s).player (updatePhase pu ru s).items
          (updatePhase pu ru s).gs).2).state = GameStateType.LOST :=
      hazardPhase_lost _ _ _ hitem hrob
    rw [goalPhase_of_terminal _ _ _ (by rw [hhaz]; simp)]
    exact hhaz
  refine ⟨hstate, ?_⟩
  rw [hstate]
  simp

/-- Witness for C1: a player square at (0,0) overlapping both the
robot at (5,5) and the goal at (3,3) ends the tick LOST. -/
theorem hazard_priority_over_goal_witness :
    (tick id id
      { player := ⟨0, 0, 10, 10⟩, robots := [⟨5, 5, 0, 0, 10, 10⟩], items := [],
        to_mo := ⟨3, 3, 10, 10⟩, gs := ⟨0, GameStateType.RUNNING⟩ }).gs.state =
      GameStateType.LOST :=
  (hazard_priority_over_goal id id _ (by decide) (by decide) (by decide)).1

/-- Claim C2: once the state is WON or LOST, every later tick leaves
the whole state unchanged — entity updates and collision checks are
skipped (only rendering, outside this state, runs) — so no further
state transition ever occurs. -/
theorem terminal_state_absorbing
    (pu : PlayerE → PlayerE) (ru : RobotE → RobotE) (n : Nat) (s : CrazyState)
    (h : s.gs.state ≠ GameStateType.RUNNING) :
    tickIter pu ru n s = s := by
  induction n with
  | zero => rfl
  | succ m ih =>
    show tickIter pu ru m (tick pu ru s) = s
    rw [tick_of_terminal pu ru s h]
    exact ih

/-- Witness for C2: from a WON state, three further ticks change
nothing, even with a robot and the goal on top of the player. -/
theorem terminal_state_absorbing_witness :
    tickIter id id 3
      { player := ⟨0, 0, 10, 10⟩, robots := [⟨5, 5, 0, 0, 10, 10⟩], items := [],
        to_mo := ⟨3, 3, 10, 10⟩, gs := ⟨4, GameStateType.WON⟩ } =
      { player := ⟨0, 0, 10, 10⟩, robots := [⟨5, 5, 0, 0, 10, 10⟩], items := [],
        to_mo := ⟨3, 3, 10, 10⟩, gs := ⟨4, GameStateType.WON⟩ } :=
  terminal_state_absorbing id id 3 _ (by decide)

/-- Claim C3: across every tick the score never decreases, and in a
tick entered with a terminal state the score does not change at all;
hence the score is non-decreasing along any iterated run. -/
theorem score_monotone_and_frozen
    (pu : PlayerE → PlayerE) (ru : RobotE → RobotE) (n : Nat) (s : CrazyState) :
    s.gs.score ≤ (tick pu ru s).gs.score ∧
    (s.gs.state ≠ GameStateType.RUNNING → (tick pu ru s).gs.score = s.gs.score) ∧
    s.gs.score ≤ (tickIter pu ru n s).gs.score := by
  refine ⟨tick_score_le pu ru s, ?_, tickIter_score_le pu ru n s⟩
  intro h
  rw [tick_of_terminal pu ru s h]

/-- Witness for C3: a tick entered in the LOST state keeps score 4. -/
theorem score_monotone_and_frozen_witness :
    (⟨⟨0, 0, 10, 10⟩, [], [], ⟨3, 3, 10, 10⟩, ⟨4, GameStateType.LOST⟩⟩ :
        CrazyState).gs.state ≠ GameStateType.RUNNING ∧
    (tick id id
      (⟨⟨0, 0, 10, 10⟩, [], [], ⟨3, 3, 10, 10⟩, ⟨4, GameStateType.LOST⟩⟩ :
        CrazyState)).gs.score = 4 :=
  ⟨by decide, (score_monotone_and_frozen id id 1 _).2.1 (by decide)⟩

/-- Claim C4: the item loop adds exactly one point per non-hidden
overlapping item and hides exactly those items; a hidden item never
satisfies the pickup guard, so it is excluded from the overlap checks
of every later tick; and the spec's example rectangles (player at
(0,0), item at (5,5), both 10 by 10) do overlap. -/
theorem item_pickup_spec (p : PlayerE) (items : List ItemE) (gs : GameState) :
    (itemPhase p items gs).2.score =
      gs.score + items.countP (fun it => picked p it) ∧
    (itemPhase p items gs).1 =
      items.map (fun it => if picked p it then it.set_hidden else it) ∧
    (∀ it : ItemE, it.hidden = true → picked p it = false) ∧
    overlaps (PlayerE.rect ⟨0, 0, 10, 10⟩) (ItemE.rect ⟨5, 5, 10, 10, false⟩) = true := by
  refine ⟨itemPhase_snd_score p items gs, itemPhase_fst_eq p items gs, ?_, by decide⟩
  intro it h
  unfold picked
  rw [h]
  simp

/-- Witness for C4: an already-hidden copy of the example item fails
the pickup guard. -/
theorem item_pickup_spec_witness :
    picked ⟨0, 0, 10, 10⟩ ⟨5, 5, 10, 10, true⟩ = false :=
  (item_pickup_spec ⟨0, 0, 10, 10⟩ [] ⟨0, GameStateType.RUNNING⟩).2.2.1
    ⟨5, 5, 10, 10, true⟩ rfl

/-- Claim C5: a quit signal observed at the top of a loop iteration
while the state is RUNNING exits the loop with the state exactly as
it was: that tick's update phase, collision checks, score and state
changes never happen. -/
theorem quit_signal_skips_tick
    (pu : PlayerE → PlayerE) (ru : RobotE → RobotE) (rest : List Bool)
    (s : CrazyState) (h : s.gs.state = GameStateType.RUNNING) :
    runGame pu ru (true :: rest) s = s := by
  simp [runGame]

/-- Witness for C5: a quit signal in the first iteration returns the
initial state although the player is on the goal. -/
theorem quit_signal_skips_tick_witness :
    runGame id id [true]
      (⟨⟨0, 0, 10, 10⟩, [], [], ⟨3, 3, 10, 10⟩, ⟨0, GameStateType.RUNNING⟩⟩ :
        CrazyState) =
      ⟨⟨0, 0, 10, 10⟩, [], [], ⟨3, 3, 10, 10⟩, ⟨0, GameStateType.RUNNING⟩⟩ :=
  quit_signal_skips_tick id id [] _ rfl

/-- Claim C6: an event carrying a listener identifier different from
an NPC's id is ignored by that NPC's update wherever it sits in the
delivered sequence: the update result (hence also every later tick,
which recomputes the flag from its own events) is the same as if the
event had not been delivered. -/
theorem event_for_other_npc_ignored
    (e : GameEvent) (lid : Nat) (npc : FriendlyNpc) (pre post : List GameEvent)
    (hl : e.listener_id = some lid) (hne : lid ≠ npc.id) :
    FriendlyNpc.update npc (pre ++ e :: post) =
      FriendlyNpc.update npc (pre ++ post) := by
  have hm : e.matchesListener npc.id = false := by
    unfold GameEvent.matchesListener
    rw [hl]
    simp [hne]
  have hloop : handleEventsLoop npc.id false (pre ++ e :: post) =
      handleEventsLoop npc.id false (pre ++ post) := by
    rw [handleEventsLoop_eq_any, handleEventsLoop_eq_any]
    simp [hm]
  unfold FriendlyNpc.update FriendlyNpc.handle_events
  rw [hloop]

/-- Witness for C6: the PLAYER_NEAR_NPC event addressed to NPC 7 has
no effect on NPC 8's update. -/
theorem event_for_other_npc_ignored_witness :
    FriendlyNpc.update ⟨8, false⟩ [⟨EventType.PLAYER_NEAR_NPC, some 7⟩] =
      FriendlyNpc.update ⟨8, false⟩ [] :=
  event_for_other_npc_ignored ⟨EventType.PLAYER_NEAR_NPC, some 7⟩ 7 ⟨8, false⟩
    [] [] rfl (by decide)

/-- Claim C7: rectangles touching on an edge do not overlap, and
`overlaps` returns true exactly when the x-ranges and y-ranges both
overlap with non-zero measure. -/
theorem overlaps_nonzero_measure_spec (a b : Rect) :
    (a.x + a.w = b.x → overlaps a b = false) ∧
    (overlaps a b = true ↔ rangesOverlapNonzero a b) := by
  refine ⟨?_, overlaps_eq_true_iff a b⟩
  intro h
  rcases hov : overlaps a b with _ | _
  · rfl
  · exfalso
    have hno := (overlaps_eq_true_iff a b).mp hov
    unfold rangesOverlapNonzero at hno
    have h1 : b.x < a.x + a.w :=
      lt_of_le_of_lt (le_max_right a.x b.x)
        (lt_of_lt_of_le hno.1 (min_le_left (a.x + a.w) (b.x + b.w)))
    omega

/-- Witness for C7: two 10-wide squares touching at x = 10 do not
overlap. -/
theorem overlaps_nonzero_measure_spec_witness :
    overlaps ⟨0, 0, 10, 10⟩ ⟨10, 0, 10, 10⟩ = false :=
  (overlaps_nonzero_measure_spec ⟨0, 0, 10, 10⟩ ⟨10, 0, 10, 10⟩).1 (by decide)

/-- Claim C8: `overlaps` is symmetric in its two rectangles, and
every rectangle of positive width and height overlaps itself. -/
theorem overlaps_symm_and_refl (a b : Rect) :
    overlaps a b = overlaps b a ∧
    (0 < a.w → 0 < a.h → overlaps a a = true) := by
  constructor
  · unfold overlaps
    rw [max_comm a.x b.x, min_comm (a.x + a.w) (b.x + b.w),
      max_comm a.y b.y, min_comm (a.y + a.h) (b.y + b.h)]
  · intro hw hh
    unfold overlaps
    simp only [max_self, min_self, Bool.and_eq_true, decide_eq_true_eq]
    omega

/-- Witness for C8: the positive-area rectangle at (1,2) with size
10 by 20 overlaps itself. -/
theorem overlaps_symm_and_refl_witness :
    overlaps ⟨1, 2, 10, 20⟩ ⟨1, 2, 10, 20⟩ = true :=
  (overlaps_symm_and_refl ⟨1, 2, 10, 20⟩ ⟨0, 0, 1, 1⟩).2 (by decide) (by decide)

/-- Claim C9: `remove_entity` is idempotent, and on an identifier
that is not live (never added or already removed) it leaves the
entity collection unchanged; being a total function it cannot raise. -/
theorem remove_entity_stale_noop {α : Type} (w : World α) (id : Nat) :
    (w.remove_entity id).remove_entity id = w.remove_entity id ∧
    (¬ w.live id → w.remove_entity id = w) := by
  constructor
  · unfold World.remove_entity
    congr 1
    exact List.filter_eq_self.mpr (fun q hq => (List.mem_filter.mp hq).2)
  · intro h
    unfold World.remove_entity
    have hall : ∀ q ∈ w.entities, (q.1 != id) = true := by
      intro q hq
      rw [bne_iff_ne]
      intro hqe
      exact h ⟨q, hq, hqe⟩
    rw [List.filter_eq_self.mpr hall]

/-- Witness for C9: removing the absent identifier 2 from a world
holding only identifier 1 changes nothing. -/
theorem remove_entity_stale_noop_witness :
    (World.mk [(1, 0)] : World Nat).remove_entity 2 = World.mk [(1, 0)] :=
  (remove_entity_stale_noop (World.mk [(1, 0)] : World Nat) 2).2 (by decide)

/-- Claim C10: after an update, `is_near_player` holds exactly when
the delivered events contain a PLAYER_NEAR_NPC event whose listener
identifier equals this NPC's id; the flag is recomputed from scratch,
so its previous value never persists into the result. -/
theorem is_near_player_iff_addressed_event
    (npc : FriendlyNpc) (events : List GameEvent) :
    ((FriendlyNpc.update npc events).is_near_player = true ↔
      ∃ e ∈ events, e.listener_id = some npc.id ∧
        e.etype = EventType.PLAYER_NEAR_NPC) ∧
    ∀ b : Bool, FriendlyNpc.update { npc with is_near_player := b } events =
      FriendlyNpc.update npc events := by
  constructor
  · unfold FriendlyNpc.update FriendlyNpc.handle_events
    simp only
    rw [handleEventsLoop_eq_any]
    simp only [Bool.false_or, List.any_eq_true, Bool.and_eq_true,
      matchesListener_eq_true_iff, is_type_eq_true_iff]
  · intro b
    rfl

end PyGameDev
